import Mathlib

/-!
Verification of the `aws-transcribe-client` session controller.

The definitions below are a shallow embedding of `src/aws-transcribe-client.ts`
(the repository also ships a second, lightly refactored copy of the same module
whose credential loader differs in one branch; both variants are embedded where
they differ).  Times are epoch milliseconds modelled as rationals; audio samples
are rationals; JavaScript exceptions are modelled with `Except`; the observer
callbacks (`onTranscript`, `onSpeechStart`, `onSpeechEnd`, `onError`,
`onStateChange`) are modelled as emitted events collected in lists.
-/

namespace AwsTranscribe

/-! ### StreamBridge: the custom `ReadableStream` class

The class keeps a FIFO `buffer` of enqueued chunks, a FIFO `listeners` list of
pending consumer requests, and a `closed` flag.  Chunks are abstracted as `Nat`
(their payload plays no role in the queue logic).  Consumer requests are given
fresh numeric ids (`nextReq`) so that resolutions can be attributed; each
operation returns the list of `(request id, result)` resolutions it performs. -/

/-- The value a pending consumer request is resolved with:
`{ value: chunk, done: false }` or `{ value: undefined, done: true }`. -/
inductive StreamResult where
  | item (v : Nat)
  | eos
deriving DecidableEq, Repr

structure ReadableStream where
  listeners : List Nat
  buffer : List Nat
  closed : Bool
  nextReq : Nat
deriving DecidableEq, Repr

/-- `constructor()`: empty buffer, no listeners, not closed. -/
def ReadableStream.init : ReadableStream := ⟨[], [], false, 0⟩

/-- `enqueue(chunk)`: no-op when closed; otherwise resolve the oldest waiting
listener immediately (`listeners.shift()`), else push onto the buffer. -/
def ReadableStream.enqueue (s : ReadableStream) (v : Nat) :
    ReadableStream × List (Nat × StreamResult) :=
  if s.closed then (s, [])
  else
    match s.listeners with
    | l :: ls => ({ s with listeners := ls }, [(l, StreamResult.item v)])
    | [] => ({ s with buffer := s.buffer ++ [v] }, [])

/-- `close()`: set the flag, resolve every pending listener with `done`,
and clear the listeners list. -/
def ReadableStream.close (s : ReadableStream) :
    ReadableStream × List (Nat × StreamResult) :=
  ({ s with closed := true, listeners := [] },
   s.listeners.map fun l => (l, StreamResult.eos))

/-- The async iterator's `next()`: if closed and the buffer is drained, resolve
with `done`; if the buffer is non-empty, shift and resolve with the chunk;
otherwise register a pending listener.  A fresh request id is allocated for the
call. -/
def ReadableStream.nextItem (s : ReadableStream) :
    ReadableStream × List (Nat × StreamResult) :=
  let req := s.nextReq
  let s1 := { s with nextReq := req + 1 }
  if s1.closed && s1.buffer.isEmpty then (s1, [(req, StreamResult.eos)])
  else
    match s1.buffer with
    | v :: rest => ({ s1 with buffer := rest }, [(req, StreamResult.item v)])
    | [] => ({ s1 with listeners := s1.listeners ++ [req] }, [])

/-- One producer/consumer action on the queue. -/
inductive RSAction where
  | enq (v : Nat)
  | close
  | next
deriving DecidableEq, Repr

def stepRS (s : ReadableStream) : RSAction → ReadableStream × List (Nat × StreamResult)
  | RSAction.enq v => s.enqueue v
  | RSAction.close => s.close
  | RSAction.next => s.nextItem

/-- Run a whole interleaving of actions, collecting every resolution. -/
def runRS : ReadableStream → List RSAction → ReadableStream × List (Nat × StreamResult)
  | s, [] => (s, [])
  | s, a :: acts =>
    let r1 := stepRS s a
    let r2 := runRS r1.1 acts
    (r2.1, r1.2 ++ r2.2)

/-- The buffer and the waiters list are never both non-empty. -/
def wellFormed (s : ReadableStream) : Prop :=
  s.buffer = [] ∨ s.listeners = []

instance (s : ReadableStream) : Decidable (wellFormed s) := by
  unfold wellFormed; infer_instance

/-- `k` successive consumer `next()` calls, keeping only the results that are
resolved immediately (on a closed queue every call resolves immediately). -/
def drain : ReadableStream → Nat → ReadableStream × List StreamResult
  | s, 0 => (s, [])
  | s, Nat.succ k =>
    let r1 := s.nextItem
    let r2 := drain r1.1 k
    (r2.1, r1.2.map Prod.snd ++ r2.2)

/-! ### Credentials and the persisted cache

`localStorage` holds a JSON credential blob under `aws_transcribe_credentials`
and a decimal usage counter under `aws_transcribe_minutes_used`; it is modelled
as a `Store`.  A stored blob is absent, malformed (fails `JSON.parse`), or a
valid credential.  The `typeof localStorage === 'undefined'` degrade path (no
storage at all) is outside every claim and is not modelled. -/

structure Credentials where
  accessKeyId : String
  secretAccessKey : String
  sessionToken : String
  expiration : ℚ            -- epoch ms, `expiration.getTime()`
  reservedMinutes : Option ℚ
deriving DecidableEq, Repr

inductive StoredBlob where
  | absent
  | malformed
  | valid (c : Credentials)
deriving DecidableEq, Repr

structure Store where
  credsBlob : StoredBlob
  minutesUsed : ℚ
deriving DecidableEq, Repr

/-- Module-level `loadStoredCredentials` of `src/aws-transcribe-client.ts`
(lines 115-132): on a parse failure it logs, removes the storage key and
returns `null`. -/
def loadStoredCredentials (st : Store) : Option Credentials × Store :=
  match st.credsBlob with
  | StoredBlob.absent => (none, st)
  | StoredBlob.valid c => (some c, st)
  | StoredBlob.malformed => (none, { st with credsBlob := StoredBlob.absent })

/-- Shared tail of both `getCredentials` variants: invoke the provider with
`getMinutesUsed()`, throw `No credentials available` on an empty result,
otherwise persist (`storeCredentials`, overwriting the cache entry) and return.
The returned list records each provider invocation with its hint argument. -/
def fetchFresh (p : ℚ → Option Credentials) (st : Store) :
    Except String Credentials × Store × List ℚ :=
  match p st.minutesUsed with
  | none => (Except.error "No credentials available", st, [st.minutesUsed])
  | some c =>
    (Except.ok c, { st with credsBlob := StoredBlob.valid c }, [st.minutesUsed])

/-- `AWSTranscribeClient._getCredentials` (the variant calling the module-level
loader above): throw if no provider; return the stored credential when its
expiration is strictly in the future (`expiration.getTime() > Date.now()`);
otherwise fetch fresh credentials from the provider. -/
def _getCredentials (now : ℚ) (provider : Option (ℚ → Option Credentials))
    (st : Store) : Except String Credentials × Store × List ℚ :=
  match provider with
  | none => (Except.error "No credentials provider available", st, [])
  | some p =>
    let (existing, st1) := loadStoredCredentials st
    match existing with
    | some c => if now < c.expiration then (Except.ok c, st1, []) else fetchFresh p st1
    | none => fetchFresh p st1

namespace AWSCredentials

/-- `AWSCredentials.loadStoredCredentials` (the refactored copy of the module):
on a parse failure it logs, removes the storage key and RE-THROWS the parse
error (modelled as the string `parse error`). -/
def loadStoredCredentials (st : Store) : Except String (Option Credentials) × Store :=
  match st.credsBlob with
  | StoredBlob.absent => (Except.ok none, st)
  | StoredBlob.valid c => (Except.ok (some c), st)
  | StoredBlob.malformed =>
    (Except.error "parse error", { st with credsBlob := StoredBlob.absent })

/-- `AWSCredentials.getCredentials`: identical policy to `_getCredentials`,
except that it uses the re-throwing loader, whose error propagates to the
caller before the provider could be consulted. -/
def getCredentials (now : ℚ) (provider : Option (ℚ → Option Credentials))
    (st : Store) : Except String Credentials × Store × List ℚ :=
  match provider with
  | none => (Except.error "No credentials provider available", st, [])
  | some p =>
    match loadStoredCredentials st with
    | (Except.error e, st1) => (Except.error e, st1, [])
    | (Except.ok (some c), st1) =>
      if now < c.expiration then (Except.ok c, st1, []) else fetchFresh p st1
    | (Except.ok none, st1) => fetchFresh p st1

end AWSCredentials

/-! ### Voice activity detection

Source (`_detectVoiceActivity`):
`const rms = Math.sqrt(inputData.reduce((acc, val) => acc + val * val, 0) / inputData.length);`
`return rms > this.config.vadThreshold;`

For a non-empty frame and mean square `m ≥ 0`, `Math.sqrt(m) > t` is equivalent
to `t < 0 ∨ m > t * t` (the square root is non-negative and strictly monotone;
`detect_iff_sqrt` below proves the equivalence), which keeps the definition
computable over `ℚ`.  For an empty frame the division is `0 / 0 = NaN` in
JavaScript, `Math.sqrt(NaN) = NaN`, and every comparison with `NaN` is false,
so the source returns `false` for every threshold. -/

def sumSquares (f : List ℚ) : ℚ := (f.map fun v => v * v).sum

def _detectVoiceActivity (f : List ℚ) (t : ℚ) : Bool :=
  if f.length = 0 then false
  else decide (t < 0 ∨ sumSquares f / (f.length : ℚ) > t * t)

/-- Modelled from the spec's words: `classify(f, t) == (rms(f) > t)` with the
RMS of the empty frame DEFINED AS `0`.  (`0 > t` for the empty frame; the same
sqrt-free encoding of `rms > t` as in `_detectVoiceActivity` otherwise.) -/
def rmsSpecGt (f : List ℚ) (t : ℚ) : Bool :=
  if f.length = 0 then decide ((0 : ℚ) > t)
  else decide (t < 0 ∨ sumSquares f / (f.length : ℚ) > t * t)

/-! ### Transcript accumulation (`_processTranscriptionResults`)

The loop body, for one result event carrying a partial flag and a text
(`result.IsPartial`, `result.Alternatives[0]?.Transcript || ''`): a partial
reports `(transcript, text)` without touching `transcript`; a final first
appends `text + ' '` to `transcript` and then reports `(transcript, '')`.
Events with an empty `Results` array are skipped by the loop and are not
modelled. -/

structure REvent where
  interim : Bool             -- `IsPartial` in the source
  text : String
deriving DecidableEq, Repr

/-- One iteration of the result loop: returns the new accumulated transcript
and the `(transcript, interimTranscript)` pair handed to `onTranscript`. -/
def processResult (transcript : String) (e : REvent) : String × (String × String) :=
  if e.interim then (transcript, (transcript, e.text))
  else
    let t := transcript ++ e.text ++ " "
    (t, (t, ""))

/-- The whole loop: fold `processResult` over the delivered result events,
collecting every `onTranscript` report in order. -/
def processResults : String → List REvent → String × List (String × String)
  | t, [] => (t, [])
  | t, e :: es =>
    let r1 := processResult t e
    let r2 := processResults r1.1 es
    (r2.1, r1.2 :: r2.2)

/-! ### Configuration defaulting (the constructor)

The constructor fills `this.config` with `options.x || DEFAULT`.  For the
numeric options JavaScript `||` tests truthiness: `0` (and `NaN`) are falsy and
fall back to the default; any non-zero number (including negatives) is kept.
Absent options are `undefined`, also falsy. -/

def VAD_THRESHOLD : ℚ := 0.02
def SILENCE_DURATION : ℚ := 1000
def MAX_SILENCE_DURATION : ℚ := 60000
def BUFFER_SIZE : ℚ := 4096
def DEFAULT_SAMPLE_RATE : ℚ := 44100

/-- The numeric fields of the `TranscribeOptions` object (`none` = the option
was not supplied, i.e. `undefined`). -/
structure TranscribeOptions where
  sampleRate : Option ℚ
  vadThreshold : Option ℚ
  silenceDuration : Option ℚ
  maxSilenceDuration : Option ℚ
  bufferSize : Option ℚ
deriving DecidableEq, Repr

/-- JavaScript `v || d` for a possibly-absent number. -/
def orDefault (v : Option ℚ) (d : ℚ) : ℚ :=
  match v with
  | none => d
  | some x => if x = 0 then d else x

/-- The numeric part of `this.config` as assembled by the constructor. -/
structure Config where
  sampleRate : ℚ
  vadThreshold : ℚ
  silenceDuration : ℚ
  maxSilenceDuration : ℚ
  bufferSize : ℚ
deriving DecidableEq, Repr

def buildConfig (o : TranscribeOptions) : Config :=
  { sampleRate := orDefault o.sampleRate DEFAULT_SAMPLE_RATE
    vadThreshold := orDefault o.vadThreshold VAD_THRESHOLD
    silenceDuration := orDefault o.silenceDuration SILENCE_DURATION
    maxSilenceDuration := orDefault o.maxSilenceDuration MAX_SILENCE_DURATION
    bufferSize := orDefault o.bufferSize BUFFER_SIZE }

/-- The default configuration (an options object with nothing supplied). -/
def defaultConfig : Config :=
  buildConfig ⟨none, none, none, none, none⟩

/-! ### The session controller (`AWSTranscribeClient`)

Handles (`stream`, `audioContext`, `sourceNode`, `processorNode`,
`transcribeClient`, `customStream`, `transcribeStream`) are modelled as
booleans recording whether the reference is currently non-null; the contents of
the `customStream` queue are modelled separately by `ReadableStream` above.
Armed timers are modelled by their data: the short and long timeouts by their
expiry deadline, the countdown interval by its recorded start time.  A timer
that has fired, or was cleared, is `none` and can never fire again. -/

/-- One observer-callback invocation. -/
inductive Emit where
  | stateChange (isListening : Bool) (isActivelySpeaking : Bool)
      (silenceCountdown : Option ℤ)
  | speechStart
  | speechEnd
  | errorMsg (msg : String)
deriving DecidableEq, Repr

def countSpeechEnd : List Emit → Nat
  | [] => 0
  | Emit.speechEnd :: es => countSpeechEnd es + 1
  | _ :: es => countSpeechEnd es

def countStateChange : List Emit → Nat
  | [] => 0
  | Emit.stateChange _ _ _ :: es => countStateChange es + 1
  | _ :: es => countStateChange es

structure Client where
  isListening : Bool
  isActivelySpeaking : Bool
  silenceCountdown : Option ℤ
  browserSupported : Bool
  audioContextH : Bool          -- `audioContext !== null`
  maxSilenceTimeout : Option ℚ  -- armed: expiry deadline (epoch ms)
  countdownInterval : Option ℚ  -- armed: the countdown's recorded start time
  sourceNode : Bool
  processorNode : Bool
  transcribeClient : Bool
  transcript : String
  streamH : Bool                -- `stream !== null` (the media stream)
  startTime : Option ℚ
  silenceTimeout : Option ℚ     -- armed: expiry deadline (epoch ms)
  activeStreaming : Bool
  customStream : Bool
  transcribeStream : Bool
deriving DecidableEq, Repr

/-- The internal state set up by the constructor (`browserSupported` as the
compatibility probe reported it). -/
def Client.init (supported : Bool) : Client :=
  { isListening := false, isActivelySpeaking := false, silenceCountdown := none
    browserSupported := supported, audioContextH := false
    maxSilenceTimeout := none, countdownInterval := none
    sourceNode := false, processorNode := false, transcribeClient := false
    transcript := "", streamH := false, startTime := none
    silenceTimeout := none, activeStreaming := false
    customStream := false, transcribeStream := false }

/-- `stop()`: if a start time is recorded, accumulate this session's elapsed
minutes into the persisted counter (the start time itself is NOT cleared);
close the custom stream; null every handle; clear every timer; reset the
session flags; emit the final state update.  The guard is JavaScript
`if (this.startTime)`, which tests truthiness: both `null` and the number `0`
are falsy and skip the accumulation.  Each cleanup step is individually
wrapped in try/catch in the source, so no step skips the rest; the
`transcribeStream` reference is not nulled by `stop()`. -/
def stop (now : ℚ) (c : Client) (st : Store) : Client × Store × List Emit :=
  let st :=
    match c.startTime with
    | some t0 =>
      if t0 = 0 then st
      else { st with minutesUsed := st.minutesUsed + (now - t0) / (1000 * 60) }
    | none => st
  let c :=
    { c with
      customStream := false
      processorNode := false
      sourceNode := false
      audioContextH := false
      streamH := false
      transcribeClient := false
      silenceTimeout := none
      maxSilenceTimeout := none
      countdownInterval := none
      isListening := false
      isActivelySpeaking := false
      silenceCountdown := none
      activeStreaming := false }
  (c, st, [Emit.stateChange false false none])

/-- Outcomes of the external collaborators consulted during `start()`: the
current time, the media-acquisition outcome, the credentials provider, and the
outcome of `transcribeClient.send(command)`.  (The `AudioContext` / node
constructors are not failure points named by the spec and are modelled as
infallible.) -/
structure StartEnv where
  now : ℚ
  getUserMedia : Except String Unit
  provider : Option (ℚ → Option Credentials)
  sendOutcome : Except String Unit

/-- The `catch` block of `start()`: report the error (`error.message ||
"Failed to start transcription"`), force `isListening = false`, null the start
time, run the full `stop()` cleanup, and re-raise the error. -/
def startRollback (e : String) (now : ℚ) (c : Client) (st : Store) :
    Except String Bool × Client × Store × List Emit :=
  let msg := if e = "" then "Failed to start transcription" else e
  let r := stop now { c with isListening := false, startTime := none } st
  (Except.error e, r.1, r.2.1, Emit.errorMsg msg :: r.2.2)

/-- `start()`: no-op returning `true` when already listening; error callback
and `false` when the browser is unsupported; otherwise acquire the media
stream, build the audio graph, obtain credentials and build the transcribe
client, create the custom stream, send the start command, record the start
time, flip `isListening` and emit the state update.  Any failure runs the
`catch` rollback above. -/
def start (env : StartEnv) (c : Client) (st : Store) :
    Except String Bool × Client × Store × List Emit :=
  if c.isListening then (Except.ok true, c, st, [])
  else if !c.browserSupported then
    (Except.ok false, c, st,
     [Emit.errorMsg "Your browser does not support microphone access or Web Audio API."])
  else
    match env.getUserMedia with
    | Except.error e => startRollback e env.now c st
    | Except.ok _ =>
      let c := { c with streamH := true, audioContextH := true,
                        sourceNode := true, processorNode := true }
      match _getCredentials env.now env.provider st with
      | (Except.error e, st1, _) => startRollback e env.now c st1
      | (Except.ok _, st1, _) =>
        let c := { c with transcribeClient := true, customStream := true }
        match env.sendOutcome with
        | Except.error e => startRollback e env.now c st1
        | Except.ok _ =>
          let c := { c with transcribeStream := true, startTime := some env.now,
                            isListening := true }
          (Except.ok true, c, st1, [Emit.stateChange true false none])

/-- All the fields `stop()` resets, at their idle values. -/
def idleCleaned (c : Client) : Bool :=
  !c.isListening && !c.isActivelySpeaking && c.silenceCountdown == none &&
  !c.audioContextH && c.maxSilenceTimeout == none &&
  c.countdownInterval == none && !c.sourceNode && !c.processorNode &&
  !c.transcribeClient && !c.streamH && c.silenceTimeout == none &&
  !c.activeStreaming && !c.customStream

/-! ### Silence timers and the per-frame callback -/

/-- `_resetSilenceTimeout()`: re-arm the short timer (clearing any previous
instance), cancel the long timer, and cancel the countdown interval (which
also clears the countdown display). -/
def _resetSilenceTimeout (now : ℚ) (cfg : Config) (c : Client) : Client :=
  { c with
    silenceTimeout := some (now + cfg.silenceDuration)
    maxSilenceTimeout := none
    countdownInterval := none
    silenceCountdown :=
      if c.countdownInterval.isSome then none else c.silenceCountdown }

/-- `_handleSilence()` (the short timer's callback, running at time `now`):
return immediately unless actively streaming; otherwise stop streaming, clear
the speaking flag, fire `onSpeechEnd` and a state update, and — if no long
timer is armed — arm the long timeout and the countdown interval. -/
def _handleSilence (now : ℚ) (cfg : Config) (c : Client) : Client × List Emit :=
  if !c.activeStreaming then (c, [])
  else
    let c := { c with activeStreaming := false, isActivelySpeaking := false }
    let emits := [Emit.speechEnd, Emit.stateChange c.isListening false none]
    if c.maxSilenceTimeout = none then
      ({ c with maxSilenceTimeout := some (now + cfg.maxSilenceDuration)
                countdownInterval := some now }, emits)
    else (c, emits)

/-- The `onaudioprocess` callback at time `now`, with the frame's VAD verdict
`hasVoice` already computed: a first speech frame starts streaming, resets the
silence timeout and fires `onSpeechStart` plus a state update; a further
speech frame only resets the timeout; a silent frame changes nothing.  (The
unconditional enqueue of the PCM chunk into `customStream` is modelled
separately by `ReadableStream`.) -/
def processFrameV (now : ℚ) (cfg : Config) (hasVoice : Bool) (c : Client) :
    Client × List Emit :=
  if hasVoice && !c.activeStreaming then
    let c := { c with activeStreaming := true, isActivelySpeaking := true }
    let c := _resetSilenceTimeout now cfg c
    (c, [Emit.speechStart, Emit.stateChange c.isListening true none])
  else if hasVoice then (_resetSilenceTimeout now cfg c, [])
  else (c, [])

/-- The callback on the raw frame: classify with `_detectVoiceActivity`. -/
def processFrame (now : ℚ) (cfg : Config) (frame : List ℚ) (c : Client) :
    Client × List Emit :=
  processFrameV now cfg (_detectVoiceActivity frame cfg.vadThreshold) c

/-- The armed short timer fires at its deadline (a cleared or already-fired
timer never fires, hence the `none` branch and the timer consuming itself). -/
def fireSilenceTimeout (cfg : Config) (c : Client) : Client × List Emit :=
  match c.silenceTimeout with
  | none => (c, [])
  | some d => _handleSilence d cfg { c with silenceTimeout := none }

/-- The armed long timer fires: `stop()` the session. -/
def fireMaxSilenceTimeout (now : ℚ) (c : Client) (st : Store) :
    Client × Store × List Emit :=
  match c.maxSilenceTimeout with
  | none => (c, st, [])
  | some _ => stop now { c with maxSilenceTimeout := none } st

/-- One tick of the countdown interval at time `now`: publish the remaining
whole seconds via a state update; once the max silence duration has elapsed,
cancel the interval and clear the countdown. -/
def countdownTick (now : ℚ) (cfg : Config) (c : Client) : Client × List Emit :=
  match c.countdownInterval with
  | none => (c, [])
  | some t0 =>
    let elapsed := now - t0
    let remaining : ℤ := ((cfg.maxSilenceDuration - elapsed) / 1000 : ℚ).ceil
    let c := { c with silenceCountdown := some remaining }
    let emits := [Emit.stateChange c.isListening false (some remaining)]
    if cfg.maxSilenceDuration ≤ elapsed then
      ({ c with countdownInterval := none, silenceCountdown := none }, emits)
    else (c, emits)

/-- The cooperative events that can interleave after initialization: an audio
frame (already VAD-classified), the short timer firing, the long timer firing,
a countdown tick. -/
inductive TEvent where
  | frame (now : ℚ) (voice : Bool)
  | shortFire
  | longFire (now : ℚ)
  | tick (now : ℚ)

def stepEvent (cfg : Config) (e : TEvent) (c : Client) (st : Store) :
    Client × Store × List Emit :=
  match e with
  | TEvent.frame now voice =>
    let (c1, em) := processFrameV now cfg voice c
    (c1, st, em)
  | TEvent.shortFire =>
    let (c1, em) := fireSilenceTimeout cfg c
    (c1, st, em)
  | TEvent.longFire now => fireMaxSilenceTimeout now c st
  | TEvent.tick now =>
    let (c1, em) := countdownTick now cfg c
    (c1, st, em)

def runEvents (cfg : Config) : List TEvent → Client → Store → Client × Store × List Emit
  | [], c, st => (c, st, [])
  | e :: es, c, st =>
    let r1 := stepEvent cfg e c st
    let r2 := runEvents cfg es r1.1 r1.2.1
    (r2.1, r2.2.1, r1.2.2 ++ r2.2.2)

/-- Only silence-classified frames. -/
def allSilentFrames (evs : List TEvent) : Bool :=
  evs.all fun e =>
    match e with
    | TEvent.frame _ v => !v
    | _ => false

/-- No speech-classified frame occurs. -/
def noVoiceEvents (evs : List TEvent) : Bool :=
  evs.all fun e =>
    match e with
    | TEvent.frame _ v => !v
    | _ => true

/-- The stored credential is present and strictly unexpired
(`existingCreds && existingCreds.expiration.getTime() > Date.now()`). -/
def freshCache (now : ℚ) (st : Store) : Bool :=
  match st.credsBlob with
  | StoredBlob.valid c => decide (now < c.expiration)
  | _ => false

/-! ### Scenario states for the silence-timer claim -/

/-- The controller right after a speech-classified frame at time `τ0`. -/
def afterSpeechFrame (cfg : Config) (τ0 : ℚ) (c : Client) : Client :=
  (processFrameV τ0 cfg true c).1

/-- ... after a further window of silence-classified frames `mid`. -/
def afterSilentWindow (cfg : Config) (mid : List TEvent) (τ0 : ℚ) (c : Client)
    (st : Store) : Client :=
  (runEvents cfg mid (afterSpeechFrame cfg τ0 c) st).1

/-- ... and then the short silence timer firing at its deadline. -/
def afterShortFire (cfg : Config) (mid : List TEvent) (τ0 : ℚ) (c : Client)
    (st : Store) : Client × List Emit :=
  fireSilenceTimeout cfg (afterSilentWindow cfg mid τ0 c st)

/-! ### Concrete fixtures (used by counterexamples and witnesses) -/

def demoCreds : Credentials :=
  { accessKeyId := "AKIA", secretAccessKey := "SECRET", sessionToken := "TOKEN"
    expiration := 3600000, reservedMinutes := none }

def okProvider : ℚ → Option Credentials := fun _ => some demoCreds

def okEnv : StartEnv :=
  { now := 60000, getUserMedia := Except.ok (), provider := some okProvider
    sendOutcome := Except.ok () }

def client0 : Client := Client.init true

def store0 : Store := { credsBlob := StoredBlob.absent, minutesUsed := 0 }

/-- The controller state reached by a successful `start()` from the initial
state at t = 60000 ms (it records the truthy `startTime = some 60000`). -/
def startedClient : Client := (start okEnv client0 store0).2.1

def startedStore : Store := (start okEnv client0 store0).2.2.1

/-! ## Helper lemmas -/

/-- Each queue operation preserves the buffer/waiters exclusion. -/
theorem wellFormed_stepRS (s : ReadableStream) (a : RSAction)
    (h : wellFormed s) : wellFormed (stepRS s a).1 := by
  obtain ⟨ls, bf, cl, nr⟩ := s
  cases a with
  | enq v =>
    cases cl <;> cases ls <;>
      simp_all [stepRS, ReadableStream.enqueue, wellFormed]
  | close =>
    simp_all [stepRS, ReadableStream.close, wellFormed]
  | next =>
    cases cl <;> cases bf <;>
      simp_all [stepRS, ReadableStream.nextItem, wellFormed]

/-- The exclusion invariant is preserved along any interleaving. -/
theorem wellFormed_runRS (acts : List RSAction) (s : ReadableStream)
    (h : wellFormed s) : wellFormed (runRS s acts).1 := by
  induction acts generalizing s with
  | nil => simpa [runRS] using h
  | cons a acts ih =>
    simpa [runRS] using ih (stepRS s a).1 (wellFormed_stepRS s a h)

/-- Draining a closed queue: the first `k` consumer calls receive the buffered
items in FIFO order, and every call past the buffer's end receives
end-of-stream; the remaining buffer is the original one with `k` items taken
off the front, and the queue stays closed. -/
theorem drain_closed (k : Nat) (ls bf : List Nat) (nr : Nat) :
    (drain ⟨ls, bf, true, nr⟩ k).2 =
      (bf.take k).map StreamResult.item ++
        List.replicate (k - bf.length) StreamResult.eos ∧
    (drain ⟨ls, bf, true, nr⟩ k).1.buffer = bf.drop k ∧
    (drain ⟨ls, bf, true, nr⟩ k).1.closed = true ∧
    (drain ⟨ls, bf, true, nr⟩ k).1.listeners = ls := by
  induction k generalizing bf nr with
  | zero => simp [drain]
  | succ k ih =>
    cases bf with
    | nil =>
      have := ih ([] : List Nat) (nr + 1)
      simp_all [drain, ReadableStream.nextItem, List.replicate_succ]
    | cons v rest =>
      have := ih rest (nr + 1)
      simp_all [drain, ReadableStream.nextItem]

/-- The sum of squared samples is non-negative. -/
theorem sumSquares_nonneg (f : List ℚ) : 0 ≤ sumSquares f := by
  apply List.sum_nonneg
  intro x hx
  rcases List.mem_map.mp hx with ⟨v, _, rfl⟩
  exact mul_self_nonneg v

/-- The sqrt-free encoding used by `_detectVoiceActivity` agrees with the
source's `Math.sqrt(meanSquare) > threshold` on every non-empty frame. -/
theorem detect_iff_sqrt (f : List ℚ) (t : ℚ) (hf : f ≠ []) :
    _detectVoiceActivity f t = true ↔
      (t : ℝ) < Real.sqrt ((sumSquares f : ℝ) / (f.length : ℝ)) := by
  have hlen : f.length ≠ 0 := by simpa using hf
  unfold _detectVoiceActivity
  rw [if_neg hlen]
  simp only [decide_eq_true_eq, gt_iff_lt]
  by_cases ht : t < 0
  · constructor
    · intro _
      have htR : (t : ℝ) < 0 := by exact_mod_cast ht
      exact lt_of_lt_of_le htR (Real.sqrt_nonneg _)
    · intro _
      exact Or.inl ht
  · push_neg at ht
    have htR : (0 : ℝ) ≤ (t : ℝ) := by exact_mod_cast ht
    rw [Real.lt_sqrt htR, sq]
    constructor
    · rintro (h | h)
      · exact absurd h (not_lt.mpr ht)
      · have h' : ((t * t : ℚ) : ℝ) < ((sumSquares f / (f.length : ℚ) : ℚ) : ℝ) := by
          exact_mod_cast h
        push_cast at h'
        exact h'
    · intro h
      refine Or.inr ?_
      have h' : ((t * t : ℚ) : ℝ) < ((sumSquares f / (f.length : ℚ) : ℚ) : ℝ) := by
        push_cast
        exact h
      exact_mod_cast h'

/-- `countSpeechEnd` is additive over concatenation. -/
theorem countSpeechEnd_append (a b : List Emit) :
    countSpeechEnd (a ++ b) = countSpeechEnd a + countSpeechEnd b := by
  induction a with
  | nil => simp [countSpeechEnd]
  | cons e es ih =>
    cases e
    all_goals simp [countSpeechEnd, ih]
    all_goals omega

/-- The module-level loader of `src/aws-transcribe-client.ts` (the older copy
of the module): on a malformed blob it clears the key and returns `none`, so
its `_getCredentials` falls back to a fresh fetch instead of re-raising —
contrast `AWSCredentials.loadStoredCredentials`. -/
theorem legacy_loader_clears_and_returns_none (st : Store)
    (hb : st.credsBlob = StoredBlob.malformed) :
    loadStoredCredentials st =
      (none, { st with credsBlob := StoredBlob.absent }) := by
  simp [loadStoredCredentials, hb]

/-! ## Claims -/

/-- Claim C3: in the result-consumption loop, a partial result leaves the
committed transcript unchanged and reports `(committed, partial text)`, while a
final result appends its text plus a trailing space and reports
`(updated committed, "")`; in particular the event sequence
`{isPartial: true, text: "hel"}`, `{isPartial: false, text: "hello"}` starting
from the empty transcript makes the transcript callback receive `("", "hel")`
and then `("hello ", "")`. -/
theorem c3_transcript_accumulation :
    (∀ (t s : String), processResult t ⟨true, s⟩ = (t, (t, s))) ∧
    (∀ (t s : String),
      processResult t ⟨false, s⟩ = (t ++ s ++ " ", (t ++ s ++ " ", ""))) ∧
    processResults "" [⟨true, "hel"⟩, ⟨false, "hello"⟩] =
      ("hello ", [("", "hel"), ("hello ", "")]) := by
  refine ⟨fun t s => rfl, fun t s => rfl, ?_⟩
  rfl

/-- Claim C4: under every interleaving of enqueue, close and consumer-next
calls from a fresh queue, the item buffer and the waiting-consumer list are
never both non-empty; an enqueue on an open queue hands its item to the oldest
waiter when one exists and otherwise appends it to the buffer; and a consumer
joins the waiters list only when the buffer is empty (a call finding a
non-empty buffer leaves the waiters untouched). -/
theorem c4_bridge_invariant :
    (∀ acts : List RSAction,
      ¬((runRS ReadableStream.init acts).1.buffer ≠ [] ∧
        (runRS ReadableStream.init acts).1.listeners ≠ [])) ∧
    (∀ (s : ReadableStream) (v l : Nat) (ls : List Nat),
      s.closed = false → s.listeners = l :: ls →
        s.enqueue v = ({ s with listeners := ls }, [(l, StreamResult.item v)])) ∧
    (∀ (s : ReadableStream) (v : Nat),
      s.closed = false → s.listeners = [] →
        s.enqueue v = ({ s with buffer := s.buffer ++ [v] }, [])) ∧
    (∀ (s : ReadableStream) (w : Nat) (bf : List Nat),
      s.buffer = w :: bf → (s.nextItem).1.listeners = s.listeners) ∧
    (∀ (s : ReadableStream),
      s.buffer = [] → s.closed = false →
        (s.nextItem).1.listeners = s.listeners ++ [s.nextReq]) := by
  refine ⟨?_, ?_, ?_, ?_, ?_⟩
  · intro acts
    have h := wellFormed_runRS acts ReadableStream.init (Or.inl rfl)
    rcases h with h | h
    · exact fun hc => hc.1 h
    · exact fun hc => hc.2 h
  · intro s v l ls hc hl
    simp [ReadableStream.enqueue, hc, hl]
  · intro s v hc hl
    simp [ReadableStream.enqueue, hc, hl]
  · intro s w bf hb
    simp [ReadableStream.nextItem, hb]
  · intro s hb hc
    simp [ReadableStream.nextItem, hb, hc]

/-- Witness for C4 at concrete inputs: an enqueue on an open queue with waiter
`7` resolves that waiter with the item. -/
theorem c4_bridge_invariant_witness :
    ReadableStream.enqueue ⟨[7], [], false, 1⟩ 5 =
      (⟨[], [], false, 1⟩, [(7, StreamResult.item 5)]) :=
  c4_bridge_invariant.2.1 ⟨[7], [], false, 1⟩ 5 7 [] rfl rfl

/-- Claim C5: after `close()` every enqueue is a no-op; consumers pending at
the moment of close each immediately receive end-of-stream; a closed queue
keeps delivering the items buffered before close in FIFO order to consumers
that pull before exhaustion, after which every consumer call resolves to
end-of-stream. -/
theorem c5_close_semantics :
    (∀ (s : ReadableStream) (v : Nat),
      ReadableStream.enqueue { s with closed := true } v =
        ({ s with closed := true }, [])) ∧
    (∀ s : ReadableStream,
      s.close = ({ s with closed := true, listeners := [] },
        s.listeners.map fun l => (l, StreamResult.eos))) ∧
    (∀ (k : Nat) (ls bf : List Nat) (nr : Nat),
      (drain ⟨ls, bf, true, nr⟩ k).2 =
        (bf.take k).map StreamResult.item ++
          List.replicate (k - bf.length) StreamResult.eos) := by
  refine ⟨?_, ?_, ?_⟩
  · intro s v
    simp [ReadableStream.enqueue]
  · intro s
    rfl
  · intro k ls bf nr
    exact (drain_closed k ls bf nr).1

/-- Witness for C5 at concrete inputs: an enqueue on a closed queue does
nothing. -/
theorem c5_close_semantics_witness :
    ReadableStream.enqueue { (⟨[], [1, 2], false, 0⟩ : ReadableStream) with
        closed := true } 9 =
      ({ (⟨[], [1, 2], false, 0⟩ : ReadableStream) with closed := true }, []) :=
  c5_close_semantics.1 ⟨[], [1, 2], false, 0⟩ 9

/-- Claim C6: `getCredentials` fails when no provider is configured; returns a
stored credential whose expiration is strictly in the future without invoking
the provider; otherwise invokes the provider exactly once with the accumulated
usage-minutes hint, persisting (and returning) a non-empty result or failing
when the provider yields nothing.  The last two conjuncts show the refactored
copy (`AWSCredentials.getCredentials`) implements the same policy on every
store whose blob is not malformed (the malformed case is claim C7's). -/
theorem c6_credentials_policy :
    (∀ (now : ℚ) (st : Store),
      _getCredentials now none st =
        (Except.error "No credentials provider available", st, [])) ∧
    (∀ (now : ℚ) (p : ℚ → Option Credentials) (c : Credentials) (st : Store),
      st.credsBlob = StoredBlob.valid c → now < c.expiration →
        _getCredentials now (some p) st = (Except.ok c, st, [])) ∧
    (∀ (now : ℚ) (p : ℚ → Option Credentials) (st : Store),
      freshCache now st = false →
        _getCredentials now (some p) st =
          match p st.minutesUsed with
          | some c =>
            (Except.ok c,
             { (loadStoredCredentials st).2 with credsBlob := StoredBlob.valid c },
             [st.minutesUsed])
          | none =>
            (Except.error "No credentials available",
             (loadStoredCredentials st).2, [st.minutesUsed])) ∧
    (∀ (now : ℚ) (p : ℚ → Option Credentials) (st : Store),
      st.credsBlob ≠ StoredBlob.malformed →
        AWSCredentials.getCredentials now (some p) st =
          _getCredentials now (some p) st) ∧
    (∀ (now : ℚ) (st : Store),
      AWSCredentials.getCredentials now none st =
        (Except.error "No credentials provider available", st, [])) := by
  refine ⟨fun now st => rfl, ?_, ?_, ?_, fun now st => rfl⟩
  · intro now p c st hb hexp
    simp [_getCredentials, loadStoredCredentials, hb, hexp]
  · intro now p st hf
    obtain ⟨blob, mins⟩ := st
    cases blob with
    | absent =>
      cases hp : p mins <;>
        simp [_getCredentials, loadStoredCredentials, fetchFresh, hp]
    | malformed =>
      cases hp : p mins <;>
        simp [_getCredentials, loadStoredCredentials, fetchFresh, hp]
    | valid c =>
      have hexp : ¬ now < c.expiration := by simpa [freshCache] using hf
      cases hp : p mins <;>
        simp [_getCredentials, loadStoredCredentials, fetchFresh, hp, hexp]
  · intro now p st hb
    obtain ⟨blob, mins⟩ := st
    cases blob with
    | absent => rfl
    | malformed => exact absurd rfl hb
    | valid c => rfl

/-- Witness for C6: an unexpired stored credential is returned as-is, with no
provider invocation recorded. -/
theorem c6_credentials_policy_witness :
    _getCredentials 0 (some okProvider)
        { credsBlob := StoredBlob.valid demoCreds, minutesUsed := 2 } =
      (Except.ok demoCreds,
       { credsBlob := StoredBlob.valid demoCreds, minutesUsed := 2 }, []) :=
  c6_credentials_policy.2.1 0 okProvider demoCreds
    { credsBlob := StoredBlob.valid demoCreds, minutesUsed := 2 } rfl (by decide)

/-- Claim C7: when the stored credential blob fails to parse, the refactored
loader removes the storage key and re-raises the parse error, and
`getCredentials` propagates it to its caller without ever consulting the
provider (the empty invocation list), rather than silently falling back to a
fresh fetch. -/
theorem c7_parse_failure_reraise :
    (∀ st : Store, st.credsBlob = StoredBlob.malformed →
      AWSCredentials.loadStoredCredentials st =
        (Except.error "parse error", { st with credsBlob := StoredBlob.absent })) ∧
    (∀ (st : Store) (now : ℚ) (p : ℚ → Option Credentials),
      st.credsBlob = StoredBlob.malformed →
        AWSCredentials.getCredentials now (some p) st =
          (Except.error "parse error",
           { st with credsBlob := StoredBlob.absent }, [])) := by
  constructor
  · intro st hb
    simp [AWSCredentials.loadStoredCredentials, hb]
  · intro st now p hb
    simp [AWSCredentials.getCredentials, AWSCredentials.loadStoredCredentials, hb]

/-- Witness for C7 on a concrete malformed store. -/
theorem c7_parse_failure_reraise_witness :
    AWSCredentials.getCredentials 0 (some okProvider)
        { credsBlob := StoredBlob.malformed, minutesUsed := 5 } =
      (Except.error "parse error",
       { credsBlob := StoredBlob.absent, minutesUsed := 5 }, []) :=
  c7_parse_failure_reraise.2
    { credsBlob := StoredBlob.malformed, minutesUsed := 5 } 0 okProvider rfl

/-- Counterexample to claim C8 as stated: at the negative threshold `-1` the
empty frame is classified `false` by the code (`NaN` comparison), but the
claim's formula `rms > t` with `rms(emptyFrame) = 0` demands `0 > -1`, i.e.
`true`. -/
theorem c8_counterexample :
    _detectVoiceActivity [] (-1) ≠ rmsSpecGt [] (-1) := by decide

/-- Claim C8 (amended): the classifier returns `rms(f) > t` for every
non-empty frame (see `detect_iff_sqrt` for the square-root reading) and for
every frame whenever `t ≥ 0`; the empty frame is classified as silence for
EVERY threshold — the code evaluates the comparison on `NaN`, not on `0`, so
for negative thresholds it disagrees with the "RMS of the empty frame is 0"
reading, while never faulting on the division by zero. -/
theorem c8_vad_amended :
    (∀ (f : List ℚ) (t : ℚ), f ≠ [] →
      _detectVoiceActivity f t = rmsSpecGt f t) ∧
    (∀ t : ℚ, _detectVoiceActivity [] t = false) ∧
    (∀ (f : List ℚ) (t : ℚ), 0 ≤ t →
      _detectVoiceActivity f t = rmsSpecGt f t) := by
  refine ⟨?_, fun t => rfl, ?_⟩
  · intro f t hf
    have hlen : f.length ≠ 0 := by simpa using hf
    simp [_detectVoiceActivity, rmsSpecGt, hlen]
  · intro f t ht
    cases f with
    | nil =>
      have hng : ¬ ((0 : ℚ) > t) := not_lt.mpr ht
      simp [_detectVoiceActivity, rmsSpecGt, hng]
    | cons v f' =>
      simp [_detectVoiceActivity, rmsSpecGt]

/-- Witness for C8 (amended), at the spec's own scenario numbers: a one-sample
frame of mean square `0.0025` (RMS `0.05`) against threshold `0.02`. -/
theorem c8_vad_amended_witness :
    _detectVoiceActivity [1/20] (1/50) = rmsSpecGt [1/20] (1/50) :=
  c8_vad_amended.1 [1/20] (1/50) (by decide)

/-- Claim C10: a numeric constructor option explicitly supplied as `0` is
replaced by the library default (JavaScript `||` tests truthiness, not
presence), exactly as an absent option is; any non-zero supplied value is
honored. -/
theorem c10_zero_numeric_options :
    (∀ d : ℚ, orDefault (some 0) d = d) ∧
    (∀ d : ℚ, orDefault none d = d) ∧
    (∀ v d : ℚ, v ≠ 0 → orDefault (some v) d = v) ∧
    (∀ o : TranscribeOptions, o.vadThreshold = some 0 →
      (buildConfig o).vadThreshold = VAD_THRESHOLD) ∧
    (∀ o : TranscribeOptions, o.silenceDuration = some 0 →
      (buildConfig o).silenceDuration = SILENCE_DURATION) ∧
    (∀ o : TranscribeOptions, o.sampleRate = some 0 →
      (buildConfig o).sampleRate = DEFAULT_SAMPLE_RATE) ∧
    (∀ o : TranscribeOptions, o.maxSilenceDuration = some 0 →
      (buildConfig o).maxSilenceDuration = MAX_SILENCE_DURATION) ∧
    (∀ o : TranscribeOptions, o.bufferSize = some 0 →
      (buildConfig o).bufferSize = BUFFER_SIZE) := by
  refine ⟨fun d => rfl, fun d => rfl, ?_, ?_, ?_, ?_, ?_, ?_⟩
  · intro v d hv
    simp [orDefault, hv]
  all_goals intro o ho
  all_goals simp [buildConfig, ho, orDefault]

/-- Witness for C10: `vadThreshold: 0` yields the default `0.02`. -/
theorem c10_zero_numeric_options_witness :
    (buildConfig ⟨some 0, some 0, some 0, some 0, some 0⟩).vadThreshold =
      VAD_THRESHOLD :=
  c10_zero_numeric_options.2.2.2.1 ⟨some 0, some 0, some 0, some 0, some 0⟩ rfl

/-- Counterexample to claim C1 as stated: from the reachable state produced by
a successful `start()` at t = 60000 ms (a truthy, nonzero start time),
stopping at t = 120000 ms and then again at t = 180000 ms changes the
persisted store a second time — `stop()` never clears the recorded start time,
so the repeated call accumulates further usage minutes (1 minute, then 2
more). -/
theorem c1_counterexample :
    (stop 180000 (stop 120000 startedClient startedStore).1
        (stop 120000 startedClient startedStore).2.1).2.1.minutesUsed ≠
      (stop 120000 startedClient startedStore).2.1.minutesUsed := by
  have h1 : startedClient.startTime = some 60000 := rfl
  have h2 : startedStore.minutesUsed = 0 := rfl
  norm_num [stop, h1, h2]

/-- Claim C1 (amended): `stop()` is idempotent on the in-memory controller
state — a second call reproduces exactly the same controller state and each
call emits exactly one final state update — and the repeated call leaves the
persisted credential blob alone; but when a truthy (nonzero) session start
time is recorded (`startTime` is never cleared by `stop()`), every repeated
call adds the elapsed minutes to the persisted usage counter again. -/
theorem c1_stop_idempotent_amended (c : Client) (st : Store) (now1 now2 : ℚ) :
    (stop now2 (stop now1 c st).1 (stop now1 c st).2.1).1 = (stop now1 c st).1 ∧
    (stop now1 c st).2.2 = [Emit.stateChange false false none] ∧
    (stop now2 (stop now1 c st).1 (stop now1 c st).2.1).2.2 =
      [Emit.stateChange false false none] ∧
    (stop now2 (stop now1 c st).1 (stop now1 c st).2.1).2.1.credsBlob =
      (stop now1 c st).2.1.credsBlob ∧
    (stop now2 (stop now1 c st).1 (stop now1 c st).2.1).2.1.minutesUsed =
      (match c.startTime with
       | none => (stop now1 c st).2.1.minutesUsed
       | some t0 =>
         if t0 = 0 then (stop now1 c st).2.1.minutesUsed
         else (stop now1 c st).2.1.minutesUsed + (now2 - t0) / (1000 * 60)) := by
  cases h : c.startTime with
  | none => simp [stop, h]
  | some t0 => by_cases ht : t0 = 0 <;> simp [stop, h, ht]

/-- Claim C2: every failure inside `start()`'s try block ends in the full
`stop()`-style cleanup (all handles nulled, all timers cleared, flags idle,
start time nulled) before the error is re-raised to the caller, and every
failure path — the unsupported-browser early return included — leaves
`isListening` false. -/
theorem c2_start_rollback (env : StartEnv) (c : Client) (st : Store) :
    match (start env c st).1 with
    | Except.error _ =>
        idleCleaned (start env c st).2.1 = true ∧
        (start env c st).2.1.startTime = none
    | Except.ok true => True
    | Except.ok false => (start env c st).2.1.isListening = false := by
  by_cases h1 : c.isListening
  · simp [start, h1]
  · by_cases h2 : c.browserSupported
    · rcases hgum : env.getUserMedia with e | u
      · simp [start, h1, h2, hgum, startRollback, stop, idleCleaned]
      · rcases hcred : _getCredentials env.now env.provider st with ⟨res, st1, hints⟩
        cases res with
        | error e =>
          simp [start, h1, h2, hgum, hcred, startRollback, stop, idleCleaned]
        | ok cr =>
          rcases hsend : env.sendOutcome with e | u
          · simp [start, h1, h2, hgum, hcred, hsend, startRollback, stop,
              idleCleaned]
          · simp [start, h1, h2, hgum, hcred, hsend]
    · simp [start, h1, h2]

/-- A speech-classified frame at time `τ0` (whether or not streaming was
already active) leaves the short timer armed for `τ0 + silenceDuration`,
streaming active, and the long timer and countdown cancelled. -/
theorem processFrameV_true (cfg : Config) (τ0 : ℚ) (c : Client) :
    (processFrameV τ0 cfg true c).1.silenceTimeout =
        some (τ0 + cfg.silenceDuration) ∧
    (processFrameV τ0 cfg true c).1.activeStreaming = true ∧
    (processFrameV τ0 cfg true c).1.maxSilenceTimeout = none ∧
    (processFrameV τ0 cfg true c).1.countdownInterval = none := by
  cases h : c.activeStreaming <;>
    simp [processFrameV, _resetSilenceTimeout, h]

/-- Silence-classified frames are complete no-ops on the controller. -/
theorem runEvents_silent (cfg : Config) (evs : List TEvent) (c : Client)
    (st : Store) (h : allSilentFrames evs = true) :
    runEvents cfg evs c st = (c, st, []) := by
  induction evs generalizing c st with
  | nil => rfl
  | cons e es ih =>
    cases e with
    | frame now v =>
      rw [allSilentFrames, List.all_cons, Bool.and_eq_true] at h
      have hv : v = false := by simpa using h.1
      have hrest := ih c st h.2
      simp [runEvents, stepEvent, processFrameV, hv, hrest]
    | shortFire => simp [allSilentFrames] at h
    | longFire now => simp [allSilentFrames] at h
    | tick now => simp [allSilentFrames] at h

/-- The armed short timer firing while streaming is active and no long timer
is armed: one `onSpeechEnd`, the speaking flags drop, and the long timer and
countdown are armed from the firing instant. -/
theorem fireShort_after (cfg : Config) (c : Client) (d : ℚ)
    (h1 : c.silenceTimeout = some d) (h2 : c.activeStreaming = true)
    (h3 : c.maxSilenceTimeout = none) :
    (fireSilenceTimeout cfg c).1.isActivelySpeaking = false ∧
    (fireSilenceTimeout cfg c).1.activeStreaming = false ∧
    (fireSilenceTimeout cfg c).1.silenceTimeout = none ∧
    (fireSilenceTimeout cfg c).1.maxSilenceTimeout =
        some (d + cfg.maxSilenceDuration) ∧
    (fireSilenceTimeout cfg c).1.countdownInterval = some d ∧
    (fireSilenceTimeout cfg c).2 =
      [Emit.speechEnd, Emit.stateChange c.isListening false none] := by
  simp [fireSilenceTimeout, h1, _handleSilence, h2, h3]

/-- Any event that is not a speech-classified frame keeps the controller out
of streaming (`activeStreaming = false`, short timer unarmed) and emits no
`onSpeechEnd`. -/
theorem stepEvent_quiet (cfg : Config) (e : TEvent) (c : Client) (st : Store)
    (ha : c.activeStreaming = false) (hs : c.silenceTimeout = none)
    (he : (match e with | TEvent.frame _ v => !v | _ => true) = true) :
    (stepEvent cfg e c st).1.activeStreaming = false ∧
    (stepEvent cfg e c st).1.silenceTimeout = none ∧
    countSpeechEnd (stepEvent cfg e c st).2.2 = 0 := by
  cases e with
  | frame now v =>
    have hv : v = false := by simpa using he
    simp [stepEvent, processFrameV, hv, ha, hs, countSpeechEnd]
  | shortFire => simp [stepEvent, fireSilenceTimeout, hs, ha, countSpeechEnd]
  | longFire now =>
    cases hm : c.maxSilenceTimeout with
    | none =>
      simp [stepEvent, fireMaxSilenceTimeout, hm, ha, hs, countSpeechEnd]
    | some d =>
      simp [stepEvent, fireMaxSilenceTimeout, hm, stop, countSpeechEnd]
  | tick now =>
    cases hk : c.countdownInterval with
    | none => simp [stepEvent, countdownTick, hk, ha, hs, countSpeechEnd]
    | some t0 =>
      by_cases hel : cfg.maxSilenceDuration ≤ now - t0 <;>
        simp [stepEvent, countdownTick, hk, hel, ha, hs, countSpeechEnd]

/-- As long as no speech-classified frame arrives, a controller with streaming
off and the short timer unarmed never emits `onSpeechEnd`. -/
theorem runEvents_quiet (cfg : Config) (evs : List TEvent) (c : Client)
    (st : Store) (ha : c.activeStreaming = false)
    (hs : c.silenceTimeout = none) (he : noVoiceEvents evs = true) :
    countSpeechEnd (runEvents cfg evs c st).2.2 = 0 := by
  induction evs generalizing c st with
  | nil => rfl
  | cons e es ih =>
    rw [noVoiceEvents, List.all_cons, Bool.and_eq_true] at he
    have hstep := stepEvent_quiet cfg e c st ha hs he.1
    have hrest := ih (stepEvent cfg e c st).1 (stepEvent cfg e c st).2.1
      hstep.1 hstep.2.1 he.2
    simp [runEvents, countSpeechEnd_append, hstep.2.2, hrest]

/-- Claim C9: after a speech-classified frame at `τ0` followed by the silence
window with no further speech-classified frame, the short silence timer fires
exactly once at `τ0 + silenceDuration`: `isActivelySpeaking` becomes false,
exactly one `onSpeechEnd` fires (none during the window, none afterwards until
speech resumes), and the long-timer/countdown pair is armed at the firing
instant. -/
theorem c9_short_silence_fires_once (cfg : Config) (c : Client) (st : Store)
    (τ0 : ℚ) (mid evs : List TEvent) (hmid : allSilentFrames mid = true)
    (hevs : noVoiceEvents evs = true) :
    (afterSilentWindow cfg mid τ0 c st).silenceTimeout =
        some (τ0 + cfg.silenceDuration) ∧
    countSpeechEnd (runEvents cfg mid (afterSpeechFrame cfg τ0 c) st).2.2 = 0 ∧
    countSpeechEnd (afterShortFire cfg mid τ0 c st).2 = 1 ∧
    (afterShortFire cfg mid τ0 c st).1.isActivelySpeaking = false ∧
    (afterShortFire cfg mid τ0 c st).1.activeStreaming = false ∧
    (afterShortFire cfg mid τ0 c st).1.maxSilenceTimeout =
        some (τ0 + cfg.silenceDuration + cfg.maxSilenceDuration) ∧
    (afterShortFire cfg mid τ0 c st).1.countdownInterval =
        some (τ0 + cfg.silenceDuration) ∧
    (∀ st2 : Store,
      countSpeechEnd
        (runEvents cfg evs (afterShortFire cfg mid τ0 c st).1 st2).2.2 = 0) := by
  have hwin := runEvents_silent cfg mid (afterSpeechFrame cfg τ0 c) st hmid
  have hwc : afterSilentWindow cfg mid τ0 c st = afterSpeechFrame cfg τ0 c := by
    simp [afterSilentWindow, hwin]
  have hsp := processFrameV_true cfg τ0 c
  have hfire := fireShort_after cfg (afterSilentWindow cfg mid τ0 c st)
    (τ0 + cfg.silenceDuration)
    (by rw [hwc]; exact hsp.1) (by rw [hwc]; exact hsp.2.1)
    (by rw [hwc]; exact hsp.2.2.1)
  refine ⟨by rw [hwc]; exact hsp.1, ?_, ?_, hfire.1, hfire.2.1,
    ?_, hfire.2.2.2.2.1, ?_⟩
  · rw [hwin]
    rfl
  · show countSpeechEnd (fireSilenceTimeout cfg
      (afterSilentWindow cfg mid τ0 c st)).2 = 1
    rw [hfire.2.2.2.2.2]
    rfl
  · exact hfire.2.2.2.1
  · intro st2
    exact runEvents_quiet cfg evs _ st2 hfire.2.1 hfire.2.2.1 hevs

/-- Witness for C9: default configuration, initial client, speech frame at
t = 0, one silent frame in the window, one countdown tick afterwards. -/
theorem c9_short_silence_fires_once_witness :
    countSpeechEnd
      (afterShortFire defaultConfig [TEvent.frame 500 false] 0 client0 store0).2
      = 1 :=
  (c9_short_silence_fires_once defaultConfig client0 store0 0
      [TEvent.frame 500 false] [TEvent.tick 1600]
      (by decide) (by decide)).2.2.1

end AwsTranscribe
